import Mathlib

/-!
# Verification of the zenyum-ai-poc classification pipeline

A shallow embedding of the embedding-based classification pipeline of the
repository (files `process_json_images_improved.py` and `server.py`) together
with theorems settling the spec claims about it.

Modelling conventions:
* An image is a raster: a list of rows, each row a list of RGB pixels.
* Directory listings are lists in `os.listdir` order; an `Option` wraps a
  listing whose root directory may be absent (`none` = path does not exist).
  A non-directory entry is modelled with an empty file listing.
* External capabilities (the CLIP encoder, PIL's resampling rotations and
  enhancement filters, sklearn's fitted predictor) enter as function
  parameters; their library-documented failure contracts are modelled
  explicitly where the code depends on them.
* Python floats are modelled by rationals, `int()` by truncation toward zero.
-/

namespace ZenyumPoc

/-- An RGB pixel value. -/
abbrev Pixel := ℕ × ℕ × ℕ

/-- A raster image: rows of pixels (`Image.open(...).convert("RGB")` result). -/
abbrev Img := List (List Pixel)

/-- An embedding vector (numpy array flattened to a list of floats). -/
abbrev Vec := List ℚ

/-- `AUGMENTATIONS` from `process_json_images_improved.py`: the six named
augmentation modes. -/
def AUGMENTATIONS : List String := ["original", "flip", "rotate+10", "rotate-10", "bright", "contrast"]

/-- `TOP_K` from `process_json_images_improved.py`. -/
def TOP_K : ℕ := 3

/-- Python `int()` applied to a float: truncation toward zero. -/
def pyInt (q : ℚ) : ℤ :=
if 0 ≤ q then ⌊q⌋ else ⌈q⌉

/-- The absolute pixel crop box computed by `crop_and_rotate_image`
(`process_json_images_improved.py` lines 121-134) from the normalized
offsets and the image dimensions, returned as `(left, top, right, bottom)`.
Missing offset keys default to `0` at the call site (`crop_properties.get`),
so the offsets arrive here as arbitrary rationals. -/
def cropBox (W H : ℕ) (leftOffset rightOffset topOffset bottomOffset : ℚ) :
    ℤ × ℤ × ℤ × ℤ :=
let left0 := pyInt (leftOffset * W)
let right0 := pyInt ((W : ℚ) - rightOffset * W)
let top0 := pyInt (topOffset * H)
let bottom0 := pyInt ((H : ℚ) - bottomOffset * H)
let left := max 0 (min left0 W)
let right := max left (min right0 W)
let top := max 0 (min top0 H)
let bottom := max top (min bottom0 H)
(left, top, right, bottom)

/-- Height of a raster (number of rows). -/
def imgHeight (im : Img) : ℕ := im.length

/-- Width of a raster (length of the first row; rasters are rectangular). -/
def imgWidth (im : Img) : ℕ := (im.headD []).length

/-- PIL `image.crop((left, top, right, bottom))` on a raster: keeps rows
`top ≤ y < bottom` and columns `left ≤ x < right`. -/
def cropImg (im : Img) (box : ℤ × ℤ × ℤ × ℤ) : Img :=
let (l, t, r, b) := box
((im.drop t.toNat).take (b - t).toNat).map fun row => (row.drop l.toNat).take (r - l).toNat

/-- `crop_and_rotate_image` from `process_json_images_improved.py`: decodes the
image (`none` models an `Image.open` failure, which the surrounding
`try/except` turns into a `None` return), computes the clamped crop box, crops,
and rotates by the negated angle when `abs(rotation_degrees) > 0.001`.
The PIL resampling rotation is the external parameter `rotFn`. -/
def crop_and_rotate_image (rotFn : Img → ℚ → Img) (decoded : Option Img)
    (leftOffset rightOffset topOffset bottomOffset : ℚ) (rotationDegrees : ℚ) :
    Option Img :=
match decoded with
| none => none
| some image =>
  let box := cropBox (imgWidth image) (imgHeight image)
    leftOffset rightOffset topOffset bottomOffset
  let cropped := cropImg image box
  some (if 1 / 1000 < |rotationDegrees| then rotFn cropped (-rotationDegrees) else cropped)

/-- `augment_image` from `process_json_images_improved.py`. `ImageOps.mirror`
is a horizontal flip: every row reversed. The resampling rotations and the
brightness/contrast enhancement filters are external PIL operations, passed
as the parameters `rot10`, `rotNeg10`, `brightFn`, `contrastFn`. -/
def augment_image (rot10 rotNeg10 brightFn contrastFn : Img → Img)
    (image : Img) (mode : String) : Img :=
if mode = "flip" then image.map List.reverse
else if mode = "rotate+10" then rot10 image
else if mode = "rotate-10" then rotNeg10 image
else if mode = "bright" then brightFn image
else if mode = "contrast" then contrastFn image
else image

/-! ## Python string primitives

Python's `str.lower()`, `str.strip()`, `str.endswith()` and string
comparison, modelled directly on the character sequence. -/

/-- Python `str.lower()` (the labels involved are ASCII). -/
def pyLower (s : String) : String := ⟨s.data.map Char.toLower⟩

/-- The whitespace characters Python `str.strip()` removes. -/
def pyIsSpace (c : Char) : Bool :=
c = ' ' || c = '\t' || c = '\n' || c = '\r' || c = '\x0b' || c = '\x0c'

/-- Python `str.strip()`: whitespace removed from both ends. -/
def pyStrip (s : String) : String :=
⟨((s.data.dropWhile pyIsSpace).reverse.dropWhile pyIsSpace).reverse⟩

/-- Python `str.endswith(suffix)`. -/
def pyEndsWith (s suffix : String) : Bool :=
suffix.data.isSuffixOf s.data

/-- Python string `<`: lexicographic comparison by code point. -/
def strLtB : List Char → List Char → Bool
| [], [] => false
| [], _ :: _ => true
| _ :: _, [] => false
| c :: cs, d :: ds =>
  if c.toNat < d.toNat then true
  else if d.toNat < c.toNat then false
  else strLtB cs ds

/-- Python string `<=` as a relation: not strictly greater. -/
def pyStrLe (a b : String) : Prop := strLtB b.data a.data = false

instance : DecidableRel pyStrLe := fun a b =>
  inferInstanceAs (Decidable (strLtB b.data a.data = false))

theorem strLtB_irrefl : ∀ x, strLtB x x = false
| [] => rfl
| _ :: cs => by simp [strLtB, strLtB_irrefl cs]

theorem strLtB_cons_lt {c d : Char} (cs ds : List Char)
    (h : c.toNat < d.toNat) : strLtB (c :: cs) (d :: ds) = true := by
  simp only [strLtB]
  rw [if_pos h]

theorem strLtB_cons_eq {c d : Char} (cs ds : List Char)
    (h : c.toNat = d.toNat) : strLtB (c :: cs) (d :: ds) = strLtB cs ds := by
  simp only [strLtB]
  rw [if_neg (by omega), if_neg (by omega)]

theorem strLtB_trans : ∀ x y z, strLtB x y = true → strLtB y z = true →
    strLtB x z = true
| [], [], _, hxy, _ => by cases hxy
| [], _ :: _, [], _, hyz => by cases hyz
| [], _ :: _, _ :: _, _, _ => rfl
| _ :: _, [], _, hxy, _ => by cases hxy
| _ :: _, _ :: _, [], _, hyz => by cases hyz
| c :: cs, d :: ds, e :: es, hxy, hyz => by
  rcases Nat.lt_trichotomy c.toNat d.toNat with h1 | h1 | h1
  · rcases Nat.lt_trichotomy d.toNat e.toNat with h2 | h2 | h2
    · exact strLtB_cons_lt cs es (by omega)
    · exact strLtB_cons_lt cs es (by omega)
    · rw [show strLtB (d :: ds) (e :: es) = false by
        simp only [strLtB]; rw [if_neg (by omega), if_pos h2]] at hyz
      cases hyz
  · rcases Nat.lt_trichotomy d.toNat e.toNat with h2 | h2 | h2
    · exact strLtB_cons_lt cs es (by omega)
    · rw [strLtB_cons_eq cs ds h1] at hxy
      rw [strLtB_cons_eq ds es h2] at hyz
      rw [strLtB_cons_eq cs es (by omega)]
      exact strLtB_trans cs ds es hxy hyz
    · rw [show strLtB (d :: ds) (e :: es) = false by
        simp only [strLtB]; rw [if_neg (by omega), if_pos h2]] at hyz
      cases hyz
  · rw [show strLtB (c :: cs) (d :: ds) = false by
      simp only [strLtB]; rw [if_neg (by omega), if_pos h1]] at hxy
    cases hxy

theorem strLtB_total : ∀ x y, strLtB x y = true ∨ strLtB y x = true ∨ x = y
| [], [] => Or.inr (Or.inr rfl)
| [], _ :: _ => Or.inl rfl
| _ :: _, [] => Or.inr (Or.inl rfl)
| c :: cs, d :: ds => by
  rcases Nat.lt_trichotomy c.toNat d.toNat with h | h | h
  · exact Or.inl (strLtB_cons_lt cs ds h)
  · have hcd : c = d := Char.eq_of_val_eq (UInt32.ext h)
    subst hcd
    rcases strLtB_total cs ds with h2 | h2 | h2
    · exact Or.inl (by rw [strLtB_cons_eq cs ds rfl]; exact h2)
    · exact Or.inr (Or.inl (by rw [strLtB_cons_eq ds cs rfl]; exact h2))
    · exact Or.inr (Or.inr (by rw [h2]))
  · exact Or.inr (Or.inl (strLtB_cons_lt ds cs h))

theorem bool_true_of_ne_false {b : Bool} (h : ¬ b = false) : b = true := by
  cases b
  · exact absurd rfl h
  · rfl

theorem strLtB_asymm {x y : List Char} (h : strLtB x y = true) :
    strLtB y x = false := by
  by_contra hc
  have hyx : strLtB y x = true := bool_true_of_ne_false hc
  have hxx := strLtB_trans x y x h hyx
  rw [strLtB_irrefl] at hxx
  cases hxx

theorem string_eq_of_data_eq {a b : String} (h : a.data = b.data) : a = b := by
  cases a
  cases b
  exact congrArg String.mk h

instance : IsTotal String pyStrLe := by
  constructor
  intro a b
  rcases strLtB_total a.data b.data with h | h | h
  · exact Or.inl (strLtB_asymm h)
  · exact Or.inr (strLtB_asymm h)
  · exact Or.inl (by unfold pyStrLe; rw [h]; exact strLtB_irrefl _)

instance : IsTrans String pyStrLe := by
  constructor
  intro a b c hab hbc
  unfold pyStrLe at hab hbc ⊢
  by_contra hc
  have hca : strLtB c.data a.data = true := bool_true_of_ne_false hc
  rcases strLtB_total b.data c.data with h | h | h
  · have hba := strLtB_trans b.data c.data a.data h hca
    rw [hab] at hba
    cases hba
  · rw [hbc] at h
    cases h
  · rw [← h] at hca
    rw [hab] at hca
    cases hca

/-! ## Corpus filesystem model -/

/-- A file inside a label directory: its name and whether `Image.open`
succeeds on it (`decodes = false` models a per-image decode failure, which the
loader logs and skips). -/
structure LabelFile where
  name : String
  decodes : Bool
deriving DecidableEq, Repr

/-- An entry of a directory listing at the label level: its name, whether it
is itself a directory, and (when a directory) its own listing of files. -/
structure DirEntry where
  name : String
  isDir : Bool
  files : List LabelFile
deriving DecidableEq, Repr

/-- An entry of the `output/` listing: a case folder with the optional
listings of its `preTreatment` and `postTreatment` subdirectories
(`none` = that subdirectory does not exist). -/
structure CaseEntry where
  name : String
  isDir : Bool
  pre : Option (List DirEntry)
  post : Option (List DirEntry)
deriving DecidableEq, Repr

/-- The state of the primary corpus root `output/`
(`none` = the directory does not exist). -/
abbrev OutputFS := Option (List CaseEntry)

/-- The state of the flat fallback corpus root `labeled_samples/`
(`none` = the directory does not exist). -/
abbrev LabeledFS := Option (List DirEntry)

/-- Python `sorted` on strings, ascending lexicographic order. -/
def pysorted (l : List String) : List String :=
List.insertionSort pyStrLe l

/-- The label-directory names of one case folder, iterating the treatment
kinds in the source's order `['preTreatment', 'postTreatment']` and keeping
only entries that are directories. -/
def caseLabelDirs (c : CaseEntry) : List String :=
((c.pre.getD []).filter (·.isDir)).map (·.name)
  ++ ((c.post.getD []).filter (·.isDir)).map (·.name)

/-- The scan inside `get_classification_categories`: iterate the `output/`
listing, and on the first entry that is a directory collect its label
directories and `break` out of the loop (the `break` at
`process_json_images_improved.py` line 273 sits inside
`if os.path.isdir(case_path):`, so only the first case directory is ever
scanned). -/
def firstCaseLabels : List CaseEntry → List String
| [] => []
| c :: rest => if c.isDir then caseLabelDirs c else firstCaseLabels rest

/-- `get_classification_categories` from `process_json_images_improved.py`:
labels scanned from the primary corpus (first case directory only, due to the
`break`); if that yields nothing and the labeled root exists, the directory
names under the labeled root; deduplicated and sorted
(`sorted(list(set(categories)))`). -/
def get_classification_categories (output : OutputFS) (labeled : LabeledFS) :
    List String :=
let categories : List String :=
  match output with
  | none => []
  | some cases => firstCaseLabels cases
let categories : List String :=
  if categories.isEmpty then
    match labeled with
    | none => categories
    | some entries => categories ++ (entries.filter (·.isDir)).map (·.name)
  else categories
pysorted categories.dedup

/-- The label-directory names of the primary corpus across ALL case
directories and both treatment kinds (the scan at
`process_json_images_improved.py` lines 180-189, which has no `break`). -/
def allCaseLabels (cases : List CaseEntry) : List String :=
((cases.filter (·.isDir)).map caseLabelDirs).flatten

/-- Modelled from the spec's words for Taxonomy Discovery (for comparison
with `get_classification_categories`): "Collects every directory name found
at the `label` level across all cases and both treatment kinds, deduplicated,
and returns them sorted", with the same fallback to the flat labeled corpus
when the primary corpus yields no labels. -/
def spec_classification_categories (output : OutputFS) (labeled : LabeledFS) :
    List String :=
let categories : List String :=
  match output with
  | none => []
  | some cases => allCaseLabels cases
let categories : List String :=
  if categories.isEmpty then
    match labeled with
    | none => categories
    | some entries => categories ++ (entries.filter (·.isDir)).map (·.name)
  else categories
pysorted categories.dedup

/-! ## Training data loader -/

/-- Recognized raster extensions:
`fname.lower().endswith((".png", ".jpg", ".jpeg"))`. -/
def imageExt (name : String) : Bool :=
pyEndsWith (pyLower name) ".png" || pyEndsWith (pyLower name) ".jpg"
  || pyEndsWith (pyLower name) ".jpeg"

/-- Training labels contributed by one file of a label directory: a file with
a recognized extension that decodes contributes one `label` per augmentation
mode (6 samples); a decode failure is logged and skipped, contributing
nothing. (The parallel embedding vectors do not influence any control flow
downstream, so the batch is represented by its label list.) -/
def fileSamples (label : String) (f : LabelFile) : List String :=
if imageExt f.name then
  (if f.decodes then AUGMENTATIONS.map (fun _ => label) else [])
else []

/-- Training labels contributed by one label directory's listing. -/
def dirSamples (label : String) (files : List LabelFile) : List String :=
(files.map (fileSamples label)).flatten

/-- The taxonomy computed inside `load_training_data_from_output`
(lines 180-191): label-directory names across all case directories and both
treatment kinds, deduplicated and sorted. -/
def loaderCategories (cases : List CaseEntry) : List String :=
pysorted (allCaseLabels cases).dedup

/-- Training labels contributed by one case folder during the loader's second
pass: for each treatment kind that exists, for each discovered class name (in
sorted taxonomy order), the samples of the directory entry with that name
(`os.path.exists(class_path)` is a lookup by name). -/
def caseSamples (cats : List String) (c : CaseEntry) : List String :=
if c.isDir then
  ([c.pre, c.post].map fun kind =>
    match kind with
    | none => []
    | some listing =>
      (cats.map fun cn =>
        match listing.find? (fun e => e.name = cn) with
        | none => []
        | some e => dirSamples cn e.files).flatten).flatten
else []

/-- The whole training batch the primary corpus yields. -/
def primaryBatch (cases : List CaseEntry) : List String :=
(cases.map (caseSamples (loaderCategories cases))).flatten

/-- The training batch the flat fallback corpus yields: each directory entry
under `labeled_samples/` is a label directory. -/
def fallbackBatch (entries : List DirEntry) : List String :=
((entries.filter (·.isDir)).map (fun e => dirSamples e.name e.files)).flatten

/-- `load_labeled_data_fallback` from `process_json_images_improved.py`:
`none` models the `(None, None)` return when `labeled_samples/` does not
exist; otherwise the collected batch is returned even when it is empty
(the source returns `(np.array(embeddings), labels)` unconditionally). -/
def load_labeled_data_fallback (labeled : LabeledFS) : Option (List String) :=
match labeled with
| none => none
| some entries => some (fallbackBatch entries)

/-- `load_training_data_from_output` from `process_json_images_improved.py`:
`none` models the `(None, None)` return when `output/` does not exist; with
an existing root the batch is collected, and `if not embeddings:` falls back
to `load_labeled_data_fallback`. -/
def load_training_data_from_output (output : OutputFS) (labeled : LabeledFS) :
    Option (List String) :=
match output with
| none => none
| some cases =>
  let labels := primaryBatch cases
  if labels.isEmpty then load_labeled_data_fallback labeled
  else some labels

/-! ## Classifier trainer and service -/

/-- A fitted classifier: the ordered class list `classes_` and the
`predict_proba` posterior function. -/
structure FitModel where
  classes : List String
  proba : Vec → List ℚ

/-- Modelled from sklearn's documented behavior: `LogisticRegression.fit`
raises a `ValueError` unless the batch contains at least two distinct
classes (and in particular at least one sample); on success `classes_` is the
sorted list of distinct labels (`np.unique(y)`). The fitted posterior is the
external deterministic function `fitFn` of the batch (`random_state=42`). -/
def sklearn_fit (fitFn : List String → Vec → List ℚ) (labels : List String) :
    Except String FitModel :=
if labels.dedup.length < 2 then
  Except.error "This solver needs samples of at least 2 classes"
else Except.ok ⟨pysorted labels.dedup, fitFn labels⟩

/-- The ways `train_classifier` can fail: `noData` models the `return None`
when the loader found nothing; `fitError` models an exception raised by
`classifier.fit`, which `train_classifier` does not catch. -/
inductive TrainErr where
  | noData
  | fitError (msg : String)
deriving DecidableEq, Repr

/-- `train_classifier` from `process_json_images_improved.py`: loads the
training data, returns `None` (here `.error .noData`) if the loader failed,
and otherwise fits the classifier; a fit exception propagates uncaught
(here `.error (.fitError _)`). -/
def train_classifier (fitFn : List String → Vec → List ℚ)
    (output : OutputFS) (labeled : LabeledFS) : Except TrainErr FitModel :=
match load_training_data_from_output output labeled with
| none => Except.error TrainErr.noData
| some labels =>
  match sklearn_fit fitFn labels with
  | Except.error m => Except.error (TrainErr.fitError m)
  | Except.ok model => Except.ok model

/-- The in-process service state of `server.py`: the resident model
`_classifier` and the persisted artifact at `MODEL_PATH`. -/
structure ServerState where
  mem : Option FitModel
  disk : Option FitModel

/-- The observable outcome of `POST /train`: success with the class list,
the HTTP 400 "no training data found" failure, or an exception escaping the
endpoint uncaught. -/
inductive TrainOutcome where
  | ok (classes : List String)
  | noDataHTTP
  | uncaught (msg : String)
deriving DecidableEq, Repr

/-- Whether a train outcome is a failure. -/
def TrainOutcome.isFailure : TrainOutcome → Bool
| TrainOutcome.ok _ => false
| TrainOutcome.noDataHTTP => true
| TrainOutcome.uncaught _ => true

/-- The `train` endpoint of `server.py` (lines 87-97), executed under
`_classifier_lock`: on a `None` classifier it raises the HTTP 400 before
touching any state; on a fit exception the exception escapes, also before
touching any state; on success it first persists the model and then installs
it as the resident model, both before the lock is released. -/
def train (fitFn : List String → Vec → List ℚ) (output : OutputFS)
    (labeled : LabeledFS) (st : ServerState) : TrainOutcome × ServerState :=
match train_classifier fitFn output labeled with
| Except.error TrainErr.noData => (TrainOutcome.noDataHTTP, st)
| Except.error (TrainErr.fitError m) => (TrainOutcome.uncaught m, st)
| Except.ok model => (TrainOutcome.ok model.classes, ⟨some model, some model⟩)

/-! ## Inference -/

/-- The ascending order `np.argsort` establishes on index positions: by
probability value, with the index itself as tie-break. (For the short arrays
that occur here — one probability per class — numpy's default sort runs its
insertion-sort branch, which is stable, so equal values keep ascending index
order.) -/
def argLe (ps : List ℚ) (i j : ℕ) : Prop :=
ps.getD i 0 < ps.getD j 0 ∨ (ps.getD i 0 = ps.getD j 0 ∧ i ≤ j)

instance (ps : List ℚ) : DecidableRel (argLe ps) := fun i j =>
  inferInstanceAs
    (Decidable (ps.getD i 0 < ps.getD j 0 ∨ (ps.getD i 0 = ps.getD j 0 ∧ i ≤ j)))

instance (ps : List ℚ) : IsTotal ℕ (argLe ps) := by
  constructor
  intro i j
  rcases lt_trichotomy (ps.getD i 0) (ps.getD j 0) with h | h | h
  · exact Or.inl (Or.inl h)
  · rcases Nat.le_total i j with hij | hij
    · exact Or.inl (Or.inr ⟨h, hij⟩)
    · exact Or.inr (Or.inr ⟨h.symm, hij⟩)
  · exact Or.inr (Or.inl h)

instance (ps : List ℚ) : IsTrans ℕ (argLe ps) := by
  constructor
  intro i j k hij hjk
  rcases hij with h1 | ⟨h1, h1n⟩
  · rcases hjk with h2 | ⟨h2, _⟩
    · exact Or.inl (h1.trans h2)
    · exact Or.inl (h2 ▸ h1)
  · rcases hjk with h2 | ⟨h2, h2n⟩
    · exact Or.inl (h1 ▸ h2)
    · exact Or.inr ⟨h1.trans h2, h1n.trans h2n⟩

/-- `np.argsort(probs)`: the index positions `0, ..., len probs - 1` in
ascending `argLe` order. -/
def pyArgsort (ps : List ℚ) : List ℕ :=
List.insertionSort (argLe ps) (List.range ps.length)

/-- `classify_image` from `process_json_images_improved.py`. The whole body
runs inside `try/except` returning `"Unknown"` on any exception, so: an
embedding failure (the external encoder is the fallible parameter `embed`)
yields `"Unknown"`; the top-`TOP_K` indices are the reversed argsort of
`predict_proba`'s output; an `IndexError` while building `top_preds` (an
index beyond `classes_`, or `top_preds[0]` on an empty list) also yields
`"Unknown"`; otherwise the answer is `top_preds[0][0]`. (`round(·, 3)` is
applied to the probability component, which is discarded, and is omitted.) -/
def classify_image (embed : Img → Except Unit Vec) (classifier : FitModel)
    (image : Img) : String :=
match embed image with
| Except.error _ => "Unknown"
| Except.ok v =>
  let probs := classifier.proba v
  let topIndices := (pyArgsort probs).reverse.take TOP_K
  match topIndices.mapM (fun i => (classifier.classes[i]?).map fun c => (c, probs.getD i 0)) with
  | none => "Unknown"
  | some [] => "Unknown"
  | some (p :: _) => p.1

/-- The Left/Right post-processing of the `classify` endpoint
(`server.py` lines 125-132): strip, compare case-insensitively, swap
`Left` and `Right`, leave anything else as the stripped string. -/
def swapLR (label : String) : String :=
let t := pyStrip label
if pyLower t = "left" then "Right"
else if pyLower t = "right" then "Left"
else t

/-- `_load_classifier_from_disk` as used by `classify` under the lock:
returns the resident model if present; otherwise loads the persisted
artifact if it exists (caching it as the resident model); otherwise `none`. -/
def resolveClassifier (st : ServerState) : Option FitModel × ServerState :=
match st.mem with
| some m => (some m, st)
| none =>
  match st.disk with
  | none => (none, st)
  | some m => (some m, ⟨some m, st.disk⟩)

/-- The observable outcome of `POST /classify`: a prediction, or the
HTTP 400 "Model not trained yet" failure. -/
inductive ClassifyOutcome where
  | ok (prediction : String)
  | modelNotTrained
deriving DecidableEq, Repr

/-- The `classify` endpoint of `server.py` (lines 100-134) for a request
whose payload already passed the media-type check and decoded: resolve the
classifier (lazy disk load under the lock), fail with the model-not-trained
error if there is none, otherwise classify and apply the Left/Right swap.
(`_classify_image` catches its own exceptions, so the endpoint's 500 branch
for classification failures is unreachable.) -/
def classify (embed : Img → Except Unit Vec) (image : Img) (st : ServerState) :
    ClassifyOutcome × ServerState :=
match resolveClassifier st with
| (none, st2) => (ClassifyOutcome.modelNotTrained, st2)
| (some m, st2) => (ClassifyOutcome.ok (swapLR (classify_image embed m image)), st2)

/-! ## Zero-shot endpoint -/

/-- `_clip_labels` from `server.py`: the fixed zero-shot label set. -/
def clip_labels : List String := ["Frontal", "Left", "Right", "Upper", "Lower"]

/-- Failures of the zero-shot path. -/
inductive ClipErr where
  | brokenTemplates
deriving DecidableEq, Repr

/-- `_ensure_clip_text_embeddings` from `server.py`: line 53 reads
`for t in temp lates` — the name is undefined (the list bound eight lines
above is `templates`), so the prompt loop can never run and this function
always raises instead of producing text embeddings. -/
def ensure_clip_text_embeddings : Except ClipErr (List Vec) :=
Except.error ClipErr.brokenTemplates

/-- Index of the first maximum of a list (`np.argmax`). -/
def idxOfMax (l : List ℚ) : ℕ :=
(List.range l.length).foldl
  (fun best i => if l.getD best 0 < l.getD i 0 then i else best) 0

/-- The `classify_clip` endpoint of `server.py` (lines 137-165) for a decoded
payload: obtain the text embeddings, embed the image with the external
encoder `encodeImage`, and pick the label of the most similar prompt
embedding (softmax is strictly monotone, so the argmax of the softmaxed
logits is the argmax of the cosine similarities). No Left/Right swap is
applied on this path. -/
def classify_clip (encodeImage : Img → Vec) (image : Img) :
    Except ClipErr String :=
match ensure_clip_text_embeddings with
| Except.error e => Except.error e
| Except.ok tembs =>
  let im := encodeImage image
  let logits := tembs.map fun t => (List.zip im t).foldl (fun s p => s + p.1 * p.2) 0
  Except.ok (clip_labels.getD (idxOfMax logits) "")

/-! ## Helper lemmas -/

theorem pysorted_perm (l : List String) : List.Perm (pysorted l) l :=
List.perm_insertionSort pyStrLe l

theorem pysorted_sorted (l : List String) : List.Sorted pyStrLe (pysorted l) :=
List.sorted_insertionSort pyStrLe l

theorem mem_pysorted {l : List String} {x : String} :
    x ∈ pysorted l ↔ x ∈ l :=
(pysorted_perm l).mem_iff

/-! ## Claims -/

/-- C9: for every decodable image and arbitrary (possibly malformed) rational
crop offsets, `crop_and_rotate_image` returns an image (never fails), and the
pixel box computed against any dimensions `W`, `H` satisfies
`0 ≤ left ≤ right ≤ W` and `0 ≤ top ≤ bottom ≤ H` after clamping, so the
crop has non-negative (possibly zero) area. -/
theorem C9_crop_box_valid (rotFn : Img → ℚ → Img) (image : Img)
    (lOff rOff tOff bOff rot : ℚ) (W H : ℕ) :
    (crop_and_rotate_image rotFn (some image) lOff rOff tOff bOff rot).isSome
      = true ∧
    0 ≤ (cropBox W H lOff rOff tOff bOff).1 ∧
    (cropBox W H lOff rOff tOff bOff).1 ≤ (cropBox W H lOff rOff tOff bOff).2.2.1 ∧
    (cropBox W H lOff rOff tOff bOff).2.2.1 ≤ (W : ℤ) ∧
    0 ≤ (cropBox W H lOff rOff tOff bOff).2.1 ∧
    (cropBox W H lOff rOff tOff bOff).2.1 ≤ (cropBox W H lOff rOff tOff bOff).2.2.2 ∧
    (cropBox W H lOff rOff tOff bOff).2.2.2 ≤ (H : ℤ) := by
  refine ⟨rfl, ?_⟩
  simp only [cropBox]
  omega

/-- C10: augmentation laws — `flip` is an involution, `original` is the
identity, and any mode outside the six named values returns the input
unchanged. -/
theorem C10_augment_laws (rot10 rotNeg10 brightFn contrastFn : Img → Img)
    (image : Img) :
    augment_image rot10 rotNeg10 brightFn contrastFn
      (augment_image rot10 rotNeg10 brightFn contrastFn image "flip") "flip"
      = image ∧
    augment_image rot10 rotNeg10 brightFn contrastFn image "original" = image ∧
    ∀ mode, mode ∉ AUGMENTATIONS →
      augment_image rot10 rotNeg10 brightFn contrastFn image mode = image := by
  refine ⟨?_, ?_, ?_⟩
  · simp [augment_image]
  · simp [augment_image]
  · intro mode h
    simp only [AUGMENTATIONS, List.mem_cons, List.not_mem_nil, or_false,
      not_or] at h
    obtain ⟨h1, h2, h3, h4, h5, h6⟩ := h
    simp [augment_image, h2, h3, h4, h5, h6]

/-- Witness for C10 at a concrete image and unknown mode. -/
theorem C10_augment_laws_witness :
    augment_image id id id id [[(1, 2, 3)]] "weird" = [[(1, 2, 3)]] :=
(C10_augment_laws id id id id [[(1, 2, 3)]]).2.2 "weird" (by decide)

/-- C1 (amended): `get_classification_categories` returns a sorted
duplicate-free list; when the primary root exists and the FIRST case
directory in listing order yields labels, the result is exactly those labels
(later case folders are never scanned, because of the `break`); when the
labeled root exists and the primary scan yields nothing, the result is
exactly the directory names under the labeled root. -/
theorem C1_taxonomy_discovery (output : OutputFS) (labeled : LabeledFS) :
    List.Sorted pyStrLe (get_classification_categories output labeled) ∧
    (get_classification_categories output labeled).Nodup ∧
    (∀ cases, output = some cases → firstCaseLabels cases ≠ [] →
      ∀ x, x ∈ get_classification_categories output labeled ↔
        x ∈ firstCaseLabels cases) ∧
    (∀ entries, labeled = some entries →
      (output = none ∨ ∃ cases, output = some cases ∧ firstCaseLabels cases = []) →
      ∀ x, x ∈ get_classification_categories output labeled ↔
        x ∈ (entries.filter (·.isDir)).map (·.name)) := by
  refine ⟨pysorted_sorted _, ((pysorted_perm _).nodup_iff).mpr (List.nodup_dedup _),
    ?_, ?_⟩
  · intro cases hout hne x
    subst hout
    have hred : get_classification_categories (some cases) labeled
        = pysorted (firstCaseLabels cases).dedup := by
      simp only [get_classification_categories]
      rw [if_neg (by simp [List.isEmpty_iff, hne])]
    rw [hred, mem_pysorted, List.mem_dedup]
  · intro entries hlab hcase x
    subst hlab
    rcases hcase with hout | ⟨cases, hout, hempty⟩
    · subst hout
      have hred : get_classification_categories none (some entries)
          = pysorted ((entries.filter (fun e => e.isDir)).map
              (fun e => e.name)).dedup := by
        simp only [get_classification_categories, List.isEmpty_nil, if_true,
          List.nil_append]
      rw [hred, mem_pysorted, List.mem_dedup]
    · subst hout
      have hred : get_classification_categories (some cases) (some entries)
          = pysorted (firstCaseLabels cases
              ++ (entries.filter (fun e => e.isDir)).map (fun e => e.name)).dedup := by
        simp only [get_classification_categories]
        rw [if_pos (by simp [List.isEmpty_iff, hempty])]
      rw [hred, mem_pysorted, List.mem_dedup, hempty, List.nil_append]

/-- Witness for C1 at a concrete corpus whose first case directory holds a
single label directory `A`. -/
theorem C1_taxonomy_discovery_witness :
    "A" ∈ get_classification_categories
        (some [⟨"c1", true, some [⟨"A", true, []⟩], none⟩]) none ↔
      "A" ∈ firstCaseLabels [⟨"c1", true, some [⟨"A", true, []⟩], none⟩] :=
(C1_taxonomy_discovery
    (some [⟨"c1", true, some [⟨"A", true, []⟩], none⟩]) none).2.2.1
  [⟨"c1", true, some [⟨"A", true, []⟩], none⟩] rfl (by decide) "A"

/-- C1 counterexample: with two case directories holding label directories
`A` and `B` respectively, `get_classification_categories` returns only `A`
(the `break` stops the scan after the first case directory), while the
spec's "across all cases" discovery returns both labels. -/
theorem C1_counterexample :
    get_classification_categories
        (some [⟨"c1", true, some [⟨"A", true, []⟩], none⟩,
               ⟨"c2", true, some [⟨"B", true, []⟩], none⟩]) none = ["A"] ∧
    spec_classification_categories
        (some [⟨"c1", true, some [⟨"A", true, []⟩], none⟩,
               ⟨"c2", true, some [⟨"B", true, []⟩], none⟩]) none = ["A", "B"] ∧
    get_classification_categories
        (some [⟨"c1", true, some [⟨"A", true, []⟩], none⟩,
               ⟨"c2", true, some [⟨"B", true, []⟩], none⟩]) none ≠
      spec_classification_categories
        (some [⟨"c1", true, some [⟨"A", true, []⟩], none⟩,
               ⟨"c2", true, some [⟨"B", true, []⟩], none⟩]) none := by
  refine ⟨by decide, by decide, by decide⟩

/-- The ×6 augmentation expansion: every image file of a label directory that
has a recognized extension and decodes contributes exactly 6 samples. -/
theorem dirSamples_length (label : String) (files : List LabelFile) :
    (dirSamples label files).length
      = 6 * (files.filter (fun f => imageExt f.name && f.decodes)).length := by
  induction files with
  | nil => rfl
  | cons f fs ih =>
    simp only [dirSamples, List.map_cons, List.flatten_cons, List.length_append,
      List.filter_cons] at ih ⊢
    by_cases h1 : imageExt f.name = true
    · by_cases h2 : f.decodes = true
      · simp [fileSamples, h1, h2, AUGMENTATIONS, ih]
        omega
      · simp [fileSamples, h1, h2, ih]
    · simp [fileSamples, h1, ih]

/-- C4 (amended): the loader returns the no-data result (`None, None`) when
the primary root is absent (without consulting the fallback), falls over to
the fallback exactly when the primary root exists and yields no samples,
returns the primary batch otherwise, expands every usable image into 6
samples, and overall returns the no-data result iff the primary root is
absent or both the primary scan is empty and the fallback root is absent
(a fallback root that exists but holds no usable image yields an empty batch,
not the no-data result). -/
theorem C4_loader_failover (output : OutputFS) (labeled : LabeledFS) :
    (output = none → load_training_data_from_output output labeled = none) ∧
    (∀ cases, output = some cases → primaryBatch cases = [] →
      load_training_data_from_output output labeled
        = load_labeled_data_fallback labeled) ∧
    (∀ cases, output = some cases → primaryBatch cases ≠ [] →
      load_training_data_from_output output labeled
        = some (primaryBatch cases)) ∧
    (load_training_data_from_output output labeled = none ↔
      output = none ∨
        ∃ cases, output = some cases ∧ primaryBatch cases = [] ∧ labeled = none) := by
  refine ⟨?_, ?_, ?_, ?_⟩
  · intro h
    subst h
    rfl
  · intro cases hout hemp
    subst hout
    simp only [load_training_data_from_output]
    rw [if_pos (by simp [List.isEmpty_iff, hemp])]
  · intro cases hout hne
    subst hout
    simp only [load_training_data_from_output]
    rw [if_neg (by simp [List.isEmpty_iff, hne])]
  · constructor
    · intro h
      rcases output with _ | cases
      · exact Or.inl rfl
      · right
        refine ⟨cases, rfl, ?_⟩
        simp only [load_training_data_from_output] at h
        by_cases hemp : primaryBatch cases = []
        · rw [if_pos (by simp [List.isEmpty_iff, hemp])] at h
          rcases labeled with _ | entries
          · exact ⟨hemp, rfl⟩
          · simp [load_labeled_data_fallback] at h
        · rw [if_neg (by simp [List.isEmpty_iff, hemp])] at h
          cases h
    · intro h
      rcases h with h | ⟨cases, hout, hemp, hlab⟩
      · subst h
        rfl
      · subst hout
        subst hlab
        simp only [load_training_data_from_output]
        rw [if_pos (by simp [List.isEmpty_iff, hemp])]
        rfl

/-- Witness for C4: an existing but empty primary root falls over to the
fallback loader. -/
theorem C4_loader_failover_witness :
    load_training_data_from_output (some []) (some [])
      = load_labeled_data_fallback (some []) :=
(C4_loader_failover (some []) (some [])).2.1 [] rfl rfl

/-- C4 counterexample: with both corpus roots existing but holding no usable
image, the loader returns an empty batch, not the no-data result; and with
the primary root absent but the fallback root holding a usable image, the
loader returns the no-data result without falling over (the fallback loader
itself would have produced six samples). -/
theorem C4_counterexample :
    load_training_data_from_output (some []) (some []) = some [] ∧
    load_training_data_from_output (some []) (some []) ≠ none ∧
    load_training_data_from_output none (some [⟨"A", true, [⟨"a.png", true⟩]⟩])
      = none ∧
    load_labeled_data_fallback (some [⟨"A", true, [⟨"a.png", true⟩]⟩])
      = some ["A", "A", "A", "A", "A", "A"] := by
  refine ⟨rfl, by decide, rfl, by decide⟩

/-- C3 (amended): when the loader yields no batch, `train` reports the
HTTP 400 no-training-data failure; when it yields a batch with fewer than two
distinct labels, `train` fails with the uncaught sklearn fit exception (not
the no-training-data failure result) and leaves the service state untouched;
with at least two distinct labels the endpoint succeeds and returns the
sorted distinct labels of the loaded batch (which is not in general the
output of `get_classification_categories` — see the counterexample). -/
theorem C3_train_label_requirements (fitFn : List String → Vec → List ℚ)
    (output : OutputFS) (labeled : LabeledFS) (st : ServerState) :
    (load_training_data_from_output output labeled = none →
      (train fitFn output labeled st).1 = TrainOutcome.noDataHTTP) ∧
    (∀ lbls, load_training_data_from_output output labeled = some lbls →
      lbls.dedup.length < 2 →
      (train fitFn output labeled st).1
          = TrainOutcome.uncaught "This solver needs samples of at least 2 classes" ∧
        (train fitFn output labeled st).2 = st) ∧
    (∀ lbls, load_training_data_from_output output labeled = some lbls →
      2 ≤ lbls.dedup.length →
      (train fitFn output labeled st).1 = TrainOutcome.ok (pysorted lbls.dedup)) := by
  refine ⟨?_, ?_, ?_⟩
  · intro h
    simp [train, train_classifier, h]
  · intro lbls hload hlt
    have : sklearn_fit fitFn lbls
        = Except.error "This solver needs samples of at least 2 classes" := by
      unfold sklearn_fit
      rw [if_pos hlt]
    constructor <;> simp [train, train_classifier, hload, this]
  · intro lbls hload hge
    have : sklearn_fit fitFn lbls
        = Except.ok ⟨pysorted lbls.dedup, fitFn lbls⟩ := by
      unfold sklearn_fit
      rw [if_neg (by omega)]
    simp [train, train_classifier, hload, this]

/-- Witness for C3: a corpus with a single label `A` and one decodable image
makes `train` fail with the uncaught fit exception, state untouched. -/
theorem C3_train_label_requirements_witness :
    (train (fun _ _ => [])
        (some [⟨"c", true, some [⟨"A", true, [⟨"a.png", true⟩]⟩], none⟩])
        none ⟨none, none⟩).1
        = TrainOutcome.uncaught "This solver needs samples of at least 2 classes" ∧
      (train (fun _ _ => [])
        (some [⟨"c", true, some [⟨"A", true, [⟨"a.png", true⟩]⟩], none⟩])
        none ⟨none, none⟩).2 = (⟨none, none⟩ : ServerState) :=
(C3_train_label_requirements (fun _ _ => [])
    (some [⟨"c", true, some [⟨"A", true, [⟨"a.png", true⟩]⟩], none⟩])
    none ⟨none, none⟩).2.1
  ["A", "A", "A", "A", "A", "A"] rfl (by decide)

/-- C3 counterexample: (a) a one-label corpus makes `train` fail with an
uncaught exception, not with the no-training-data failure result; (b) with
case folder `c1` holding labels `A`, `B` and case folder `c2` holding label
`C` (each with one decodable image), `train` succeeds with classes
`[A, B, C]` while `get_classification_categories` returns `[A, B]`
(only the first case folder is scanned), so the returned class list differs
from taxonomy discovery's output. -/
theorem C3_counterexample :
    (train (fun _ _ => [])
        (some [⟨"c", true, some [⟨"A", true, [⟨"a.png", true⟩]⟩], none⟩])
        none ⟨none, none⟩).1
        = TrainOutcome.uncaught "This solver needs samples of at least 2 classes" ∧
    (train (fun _ _ => [])
        (some [⟨"c", true, some [⟨"A", true, [⟨"a.png", true⟩]⟩], none⟩])
        none ⟨none, none⟩).1 ≠ TrainOutcome.noDataHTTP ∧
    (train (fun _ _ => [])
        (some [⟨"c1", true, some [⟨"A", true, [⟨"a.png", true⟩]⟩,
                                  ⟨"B", true, [⟨"b.png", true⟩]⟩], none⟩,
               ⟨"c2", true, some [⟨"C", true, [⟨"c.png", true⟩]⟩], none⟩])
        none ⟨none, none⟩).1 = TrainOutcome.ok ["A", "B", "C"] ∧
    get_classification_categories
        (some [⟨"c1", true, some [⟨"A", true, [⟨"a.png", true⟩]⟩,
                                  ⟨"B", true, [⟨"b.png", true⟩]⟩], none⟩,
               ⟨"c2", true, some [⟨"C", true, [⟨"c.png", true⟩]⟩], none⟩])
        none = ["A", "B"] ∧
    (["A", "B", "C"] : List String) ≠ ["A", "B"] := by
  refine ⟨by decide, by decide, by decide, by decide, by decide⟩

/-- C5: `train` leaves both the resident model and the persisted artifact
exactly as they were on any failure (no-training-data or uncaught fit
exception), and on success installs the newly fitted model both in memory
and on disk in the same step, before the lock is released. -/
theorem C5_train_atomicity (fitFn : List String → Vec → List ℚ)
    (output : OutputFS) (labeled : LabeledFS) (st : ServerState) :
    ((train fitFn output labeled st).1.isFailure = true →
      (train fitFn output labeled st).2 = st) ∧
    (∀ cs, (train fitFn output labeled st).1 = TrainOutcome.ok cs →
      ∃ m, train_classifier fitFn output labeled = Except.ok m ∧
        m.classes = cs ∧
        (train fitFn output labeled st).2 = ⟨some m, some m⟩) := by
  rcases htc : train_classifier fitFn output labeled with e | m
  · rcases e with _ | msg
    · constructor
      · intro _
        simp [train, htc]
      · intro cs h
        simp [train, htc] at h
    · constructor
      · intro _
        simp [train, htc]
      · intro cs h
        simp [train, htc] at h
  · constructor
    · intro h
      simp [train, htc, TrainOutcome.isFailure] at h
    · intro cs h
      simp only [train, htc] at h ⊢
      exact ⟨m, rfl, by cases h; rfl, rfl⟩

/-- Witness for C5 at a failing train call (absent corpus roots): the state
is untouched. -/
theorem C5_train_atomicity_witness :
    (train (fun _ _ => []) none none ⟨none, none⟩).2
      = (⟨none, none⟩ : ServerState) :=
(C5_train_atomicity (fun _ _ => []) none none ⟨none, none⟩).1 rfl

/-- C7: with neither a resident nor a persisted model, `classify` fails with
the model-not-trained error; and after any successful `train`, clearing the
in-memory state (process restart) and calling `classify` again lazy-loads the
persisted artifact and produces the same outcome as before the restart, a
successful prediction. -/
theorem C7_persistence_roundtrip (fitFn : List String → Vec → List ℚ)
    (output : OutputFS) (labeled : LabeledFS) (st : ServerState)
    (embed : Img → Except Unit Vec) (image : Img) :
    classify embed image ⟨none, none⟩
        = (ClassifyOutcome.modelNotTrained, ⟨none, none⟩) ∧
    (∀ cs, (train fitFn output labeled st).1 = TrainOutcome.ok cs →
      (classify embed image ⟨none, (train fitFn output labeled st).2.disk⟩).1
          = (classify embed image ((train fitFn output labeled st).2)).1 ∧
        ∃ p, (classify embed image ((train fitFn output labeled st).2)).1
          = ClassifyOutcome.ok p) := by
  constructor
  · rfl
  · intro cs h
    rcases htc : train_classifier fitFn output labeled with e | m
    · rcases e with _ | msg <;> simp [train, htc] at h
    · simp only [train, htc]
      exact ⟨rfl, ⟨_, rfl⟩⟩

/-- Witness for C7: train on a two-label corpus, clear the resident model,
classify again — same outcome as with the resident model, a prediction. -/
theorem C7_persistence_roundtrip_witness :
    (classify (fun _ => Except.ok []) []
        ⟨none, (train (fun _ _ => [(1 : ℚ)])
          (some [⟨"c", true, some [⟨"A", true, [⟨"a.png", true⟩]⟩,
                                   ⟨"B", true, [⟨"b.png", true⟩]⟩], none⟩])
          none ⟨none, none⟩).2.disk⟩).1
        = (classify (fun _ => Except.ok []) []
            ((train (fun _ _ => [(1 : ℚ)])
              (some [⟨"c", true, some [⟨"A", true, [⟨"a.png", true⟩]⟩,
                                       ⟨"B", true, [⟨"b.png", true⟩]⟩], none⟩])
              none ⟨none, none⟩).2)).1 ∧
      ∃ p, (classify (fun _ => Except.ok []) []
          ((train (fun _ _ => [(1 : ℚ)])
            (some [⟨"c", true, some [⟨"A", true, [⟨"a.png", true⟩]⟩,
                                     ⟨"B", true, [⟨"b.png", true⟩]⟩], none⟩])
            none ⟨none, none⟩).2)).1 = ClassifyOutcome.ok p :=
(C7_persistence_roundtrip (fun _ _ => [(1 : ℚ)])
    (some [⟨"c", true, some [⟨"A", true, [⟨"a.png", true⟩]⟩,
                             ⟨"B", true, [⟨"b.png", true⟩]⟩], none⟩])
    none ⟨none, none⟩ (fun _ => Except.ok []) []).2
  ["A", "B"] (by decide)

/-- C6 (amended): a failure of the external embedding inside `classify_image`
is swallowed: the request succeeds with the sentinel label `"Unknown"`
(outside any trained class list that does not contain it), instead of being
surfaced to the caller. -/
theorem C6_unknown_sentinel (embed : Img → Except Unit Vec) (image : Img)
    (st : ServerState) (m : FitModel)
    (hmem : st.mem = some m) (hfail : embed image = Except.error ()) :
    classify embed image st = (ClassifyOutcome.ok "Unknown", st) := by
  have hres : resolveClassifier st = (some m, st) := by
    unfold resolveClassifier
    rw [hmem]
  have hci : classify_image embed m image = "Unknown" := by
    unfold classify_image
    rw [hfail]
  unfold classify
  rw [hres]
  show (ClassifyOutcome.ok (swapLR (classify_image embed m image)), st)
    = (ClassifyOutcome.ok "Unknown", st)
  have hswap : swapLR "Unknown" = "Unknown" := by decide
  rw [hci, hswap]

/-- Witness for C6: a concrete model over classes `Left`/`Right` and an
embedding failure — the endpoint succeeds with `"Unknown"`. -/
theorem C6_unknown_sentinel_witness :
    classify (fun _ => Except.error ()) []
        ⟨some ⟨["Left", "Right"], fun _ => []⟩, none⟩
      = (ClassifyOutcome.ok "Unknown",
         ⟨some ⟨["Left", "Right"], fun _ => []⟩, none⟩) :=
C6_unknown_sentinel (fun _ => Except.error ()) []
  ⟨some ⟨["Left", "Right"], fun _ => []⟩, none⟩
  ⟨["Left", "Right"], fun _ => []⟩ rfl rfl

/-- C6 counterexample: on an internal embedding failure, `classify` silently
succeeds and returns `"Unknown"`, a label outside the trained model's class
list, instead of surfacing the failure. -/
theorem C6_counterexample :
    (classify (fun _ => Except.error ()) []
        ⟨some ⟨["Left", "Right"], fun _ => []⟩, none⟩).1
        = ClassifyOutcome.ok "Unknown" ∧
    "Unknown" ∉ (["Left", "Right"] : List String) := by
  exact ⟨rfl, by decide⟩

/-- C8: the zero-shot endpoint can never produce a prediction — its text
embedding setup always raises because of the undefined name `temp lates`
(`server.py` line 53) — while the primary path's Left/Right swap behaves as
specified (`Left` to `Right`, `Right` to `Left`, other labels unchanged). -/
theorem C8_zero_shot_broken (encodeImage : Img → Vec) (image : Img) :
    classify_clip encodeImage image = Except.error ClipErr.brokenTemplates ∧
    swapLR "Left" = "Right" ∧
    swapLR "Right" = "Left" ∧
    swapLR "Frontal" = "Frontal" := by
  exact ⟨rfl, by decide, by decide, by decide⟩

theorem argLe_refl (ps : List ℚ) (i : ℕ) : argLe ps i i :=
Or.inr ⟨rfl, Nat.le_refl i⟩

theorem pyArgsort_perm (ps : List ℚ) :
    List.Perm (pyArgsort ps) (List.range ps.length) :=
List.perm_insertionSort (argLe ps) (List.range ps.length)

theorem pyArgsort_sorted (ps : List ℚ) :
    List.Sorted (argLe ps) (pyArgsort ps) :=
List.sorted_insertionSort (argLe ps) (List.range ps.length)

/-- The head of the reversed argsort is an in-range index that every other
in-range index relates to: it carries a maximal probability, and among the
indices tied at that probability it is the largest. -/
theorem pyArgsort_reverse_max (ps : List ℚ) (hne : ps ≠ []) :
    ∃ x rest, (pyArgsort ps).reverse = x :: rest ∧ x < ps.length ∧
      (∀ j ∈ rest, j < ps.length) ∧ (∀ j < ps.length, argLe ps j x) := by
  have hperm := pyArgsort_perm ps
  have hsort := pyArgsort_sorted ps
  have hlen : (pyArgsort ps).length = ps.length := by
    rw [hperm.length_eq, List.length_range]
  have hpos : 0 < ps.length := List.length_pos.mpr hne
  rcases hrev : (pyArgsort ps).reverse with _ | ⟨x, rest⟩
  · exfalso
    have : (pyArgsort ps).reverse.length = 0 := by rw [hrev]; rfl
    rw [List.length_reverse, hlen] at this
    omega
  · have hmemrange : ∀ j, j ∈ (pyArgsort ps).reverse ↔ j ∈ List.range ps.length := by
      intro j
      rw [List.mem_reverse]
      exact hperm.mem_iff
    have hxmem : x ∈ (pyArgsort ps).reverse := by
      rw [hrev]
      exact List.mem_cons_self x rest
    have hx : x < ps.length := List.mem_range.mp ((hmemrange x).mp hxmem)
    have hrestlt : ∀ j ∈ rest, j < ps.length := by
      intro j hj
      have hjmem : j ∈ (pyArgsort ps).reverse := by
        rw [hrev]
        exact List.mem_cons_of_mem x hj
      exact List.mem_range.mp ((hmemrange j).mp hjmem)
    have hpairrev : (pyArgsort ps).reverse.Pairwise (flip (argLe ps)) :=
      List.pairwise_reverse.mpr hsort
    rw [hrev] at hpairrev
    have hxmax : ∀ j ∈ rest, argLe ps j x := fun j hj =>
      (List.pairwise_cons.mp hpairrev).1 j hj
    refine ⟨x, rest, rfl, hx, hrestlt, ?_⟩
    intro j hj
    have hjmem : j ∈ x :: rest := by
      rw [← hrev]
      exact (hmemrange j).mpr (List.mem_range.mpr hj)
    rcases List.mem_cons.mp hjmem with h | h
    · subst h
      exact argLe_refl ps j
    · exact hxmax j h

/-- Building `top_preds` succeeds (no `IndexError`) when every top index is
inside the class list, and yields the looked-up labels in order. -/
theorem mapM_lookup (cs : List String) (g : ℕ → ℚ) :
    ∀ idxs : List ℕ, (∀ i ∈ idxs, i < cs.length) →
      idxs.mapM (fun i => (cs[i]?).map (fun c => (c, g i)))
        = some (idxs.map (fun i => (cs.getD i "", g i)))
| [] => fun _ => rfl
| i :: is => fun h => by
  have hi : i < cs.length := h i (List.mem_cons_self i is)
  have hget : cs[i]? = some (cs.getD i "") := by
    rw [List.getElem?_eq_getElem hi, List.getD_eq_getElem cs "" hi]
  have htail := mapM_lookup cs g is (fun j hj => h j (List.mem_cons_of_mem i hj))
  rw [List.mapM_cons, hget, htail]
  rfl

/-- C2 (amended): on a successful embedding, `classify_image` returns a label
carrying the maximal predicted probability, and among the indices tied at the
maximal probability it is the one at the LARGEST index of the model's ordered
class list (the reversed ascending argsort puts the last-ranked of the tied
indices first). -/
theorem C2_argmax_last_tie (embed : Img → Except Unit Vec) (m : FitModel)
    (image : Img) (v : Vec)
    (hemb : embed image = Except.ok v)
    (hlen : (m.proba v).length = m.classes.length)
    (hne : m.classes ≠ []) :
    ∃ i, i < m.classes.length ∧
      classify_image embed m image = m.classes.getD i "" ∧
      (∀ j < (m.proba v).length, (m.proba v).getD j 0 ≤ (m.proba v).getD i 0) ∧
      (∀ j < (m.proba v).length,
        (m.proba v).getD j 0 = (m.proba v).getD i 0 → j ≤ i) := by
  have hpsne : m.proba v ≠ [] := by
    intro h
    apply hne
    have h0 : (m.proba v).length = 0 := by rw [h]; rfl
    rw [hlen] at h0
    exact List.length_eq_zero.mp h0
  obtain ⟨x, rest, hrev, hx, hrestlt, hmax⟩ := pyArgsort_reverse_max (m.proba v) hpsne
  have hall : ∀ i ∈ x :: rest.take 2, i < m.classes.length := by
    intro i hi
    rcases List.mem_cons.mp hi with h | h
    · subst h
      rw [← hlen]
      exact hx
    · rw [← hlen]
      exact hrestlt i (List.mem_of_mem_take h)
  have h1 : classify_image embed m image
      = (match ((pyArgsort (m.proba v)).reverse.take TOP_K).mapM
            (fun i => (m.classes[i]?).map fun c => (c, (m.proba v).getD i 0)) with
        | none => "Unknown"
        | some [] => "Unknown"
        | some (p :: _) => p.1) := by
    unfold classify_image
    rw [hemb]
  have hval : classify_image embed m image = m.classes.getD x "" := by
    rw [h1, hrev]
    have h2 : List.take TOP_K (x :: rest) = x :: rest.take 2 := rfl
    rw [h2, mapM_lookup m.classes (fun i => (m.proba v).getD i 0) (x :: rest.take 2) hall]
    rfl
  refine ⟨x, by rw [← hlen]; exact hx, hval, ?_, ?_⟩
  · intro j hj
    rcases hmax j hj with h | ⟨h, _⟩
    · exact le_of_lt h
    · exact le_of_eq h
  · intro j hj heq
    rcases hmax j hj with h | ⟨_, h⟩
    · exact absurd heq (ne_of_lt h)
    · exact h

/-- Witness for C2 at a concrete two-class model with distinct
probabilities. -/
theorem C2_argmax_last_tie_witness :
    ∃ i, i < (["A", "B"] : List String).length ∧
      classify_image (fun _ => Except.ok [])
          ⟨["A", "B"], fun _ => [(1 : ℚ), 2]⟩ []
        = (["A", "B"] : List String).getD i "" ∧
      (∀ j < ([(1 : ℚ), 2] : List ℚ).length,
        ([(1 : ℚ), 2] : List ℚ).getD j 0 ≤ ([(1 : ℚ), 2] : List ℚ).getD i 0) ∧
      (∀ j < ([(1 : ℚ), 2] : List ℚ).length,
        ([(1 : ℚ), 2] : List ℚ).getD j 0 = ([(1 : ℚ), 2] : List ℚ).getD i 0 →
          j ≤ i) :=
C2_argmax_last_tie (fun _ => Except.ok [])
  ⟨["A", "B"], fun _ => [(1 : ℚ), 2]⟩ [] [] rfl rfl (by decide)

/-- C2 counterexample: with classes `[A, B]` and tied probabilities,
`classify_image` returns `B` — the label at the LAST index among the tied
maxima — not `A`, the first in the model's ordered class list as the claim
states. -/
theorem C2_counterexample :
    classify_image (fun _ => Except.ok [])
        ⟨["A", "B"], fun _ => [(1 : ℚ), 1]⟩ [] = "B" ∧
    ([(1 : ℚ), 1] : List ℚ).getD 0 0 = ([(1 : ℚ), 1] : List ℚ).getD 1 0 ∧
    (["A", "B"] : List String).getD 0 "" = "A" ∧
    ("B" : String) ≠ "A" := by
  refine ⟨by decide, by decide, by decide, by decide⟩

end ZenyumPoc
